import Mathlib

/-!
Verification development for the Esp32CameraRover2 rover motion-control
subsystem: the bounded command queue, command submission paths, halt,
closed-loop (PID) output clamping, and the HTTP / websocket command handlers
from `src/src/main.cpp`.  Declarations and constants come from
`src/src/rover/rover.h`; where only a declaration is present in the sources,
the corresponding definition is modelled from the specification and says so
in its doc comment.  C++ `float` quantities are modelled as rationals.
-/

/-- Status code `SUCCESS` (src/src/rover/rover.h line 18). -/
def SUCCESS : Int := 0

/-- Status code `FAILURE` (src/src/rover/rover.h line 19). -/
def FAILURE : Int := -1

/-- Status `COMMAND_BAD_FAILURE` for a null or empty command (rover.h line 104). -/
def COMMAND_BAD_FAILURE : Int := -1

/-- Status `COMMAND_PARSE_FAILURE` for a malformed command (rover.h line 105). -/
def COMMAND_PARSE_FAILURE : Int := -2

/-- Status `COMMAND_ENQUEUE_FAILURE` for a full queue (rover.h line 106). -/
def COMMAND_ENQUEUE_FAILURE : Int := -3

/-- `MAX_SPEED_COMMAND` (rover.h line 102): the top of the drive-output range. -/
def MAX_SPEED_COMMAND : ℚ := 255

/-- `TwoWheelRover::COMMAND_BUFFER_SIZE` (rover.h line 117). -/
abbrev COMMAND_BUFFER_SIZE : Nat := 4

/-- `SpeedCommand` (rover.h lines 38-44): direction and magnitude for one wheel. -/
structure SpeedCommand where
  forward : Bool
  value : ℚ
deriving DecidableEq

/-- The C++ default constructor `SpeedCommand()` (rover.h line 39). -/
instance : Inhabited SpeedCommand := ⟨⟨false, 0⟩⟩

/-- `TankCommand` (rover.h lines 63-70): speed/direction for both wheels. -/
structure TankCommand where
  useSpeedControl : Bool
  left : SpeedCommand
  right : SpeedCommand
deriving DecidableEq

/-- The C++ default constructor `TankCommand()` (rover.h line 64). -/
instance : Inhabited TankCommand := ⟨⟨false, ⟨false, 0⟩, ⟨false, 0⟩⟩⟩

/-- `PidCommand` (rover.h lines 49-57): speed-control tuning parameters. -/
structure PidCommand where
  maxSpeed : ℚ
  Kp : ℚ
  Ki : ℚ
  Kd : ℚ
deriving DecidableEq

/-- `RoverCommand` (rover.h lines 83-93): the C++ tagged union rendered as a
sum type, one payload per `CommandType` tag. -/
inductive RoverCommand where
  | noop : RoverCommand
  | halt : RoverCommand
  | tank (tank : TankCommand) : RoverCommand
  | pid (pid : PidCommand) : RoverCommand
deriving DecidableEq

/-- `SubmitCommandResult` (rover.h lines 95-99). -/
structure SubmitCommandResult where
  status : Int
  id : Int
  command : RoverCommand
deriving DecidableEq

/-- Per-wheel speed-controller state (spec section 3, `ControllerState`):
`{integralAccumulator, previousError, lastAppliedOutput}`, reset to zero on
halt or detach.  The `DriveWheel` sources holding it are not in `src/`. -/
structure ControllerState where
  integralAccumulator : ℚ
  previousError : ℚ
  lastAppliedOutput : ℚ
deriving DecidableEq

/-- The mutable state of `TwoWheelRover` (rover.h lines 109-126): cached wheel
outputs, the circular command queue with its head (read) and tail (write)
cursors, and — standing in for the attached `DriveWheel` objects whose sources
are not in `src/` — one `ControllerState` per wheel.  The cursors are
`uint8_t` values kept below the capacity by the modulo-capacity discipline of
spec section 4.2, so they are modelled as `Fin COMMAND_BUFFER_SIZE`. -/
structure TwoWheelRover where
  speedLeft : ℚ
  speedRight : ℚ
  forwardLeft : Bool
  forwardRight : Bool
  commandQueue : Fin COMMAND_BUFFER_SIZE → TankCommand
  commandHead : Fin COMMAND_BUFFER_SIZE
  commandTail : Fin COMMAND_BUFFER_SIZE
  leftController : ControllerState
  rightController : ControllerState

/-- The field initializers of `TwoWheelRover` (rover.h lines 112-126): zero
speeds, forward flags set, default-constructed queue entries, both cursors
zero; controllers start at zero (spec section 3). -/
def initialRover : TwoWheelRover :=
  { speedLeft := 0
    speedRight := 0
    forwardLeft := true
    forwardRight := true
    commandQueue := fun _ => default
    commandHead := 0
    commandTail := 0
    leftController := ⟨0, 0, 0⟩
    rightController := ⟨0, 0, 0⟩ }

/-- Modelled from the spec: the body of `TwoWheelRover::enqueueRoverCommand`
(declared at rover.h lines 230-233; the implementation file is not in `src/`).
Spec section 4.2: enqueue succeeds and advances the tail iff the buffer is not
full, where "full" is defined as "advancing tail would make it equal to head";
on failure the buffer is unchanged.  Cursor arithmetic is modulo the capacity
(`Fin` addition). -/
def enqueueRoverCommand (rover : TwoWheelRover) (command : TankCommand) :
    Int × TwoWheelRover :=
  let newTail := rover.commandTail + 1
  if newTail = rover.commandHead then
    (FAILURE, rover)
  else
    (SUCCESS,
      { rover with
          commandQueue := Function.update rover.commandQueue rover.commandTail command
          commandTail := newTail })

/-- Modelled from the spec: the body of `TwoWheelRover::dequeueRoverCommand`
(declared at rover.h lines 239-243; the implementation file is not in `src/`).
Spec section 4.2: dequeue succeeds and advances the head iff the buffer is not
empty (`head == tail` defines empty); it fails otherwise with the output
parameter unchanged. -/
def dequeueRoverCommand (rover : TwoWheelRover) (command : TankCommand) :
    Int × TwoWheelRover × TankCommand :=
  if rover.commandHead = rover.commandTail then
    (FAILURE, rover, command)
  else
    (SUCCESS,
      { rover with commandHead := rover.commandHead + 1 },
      rover.commandQueue rover.commandHead)

/-- Reduce a natural number to a valid queue index. -/
def bufIndex (i : Nat) : Fin COMMAND_BUFFER_SIZE :=
  ⟨i % COMMAND_BUFFER_SIZE, Nat.mod_lt i (by decide)⟩

/-- Number of commands pending in the circular buffer. -/
def queueSize (rover : TwoWheelRover) : Nat :=
  (rover.commandTail.val + COMMAND_BUFFER_SIZE - rover.commandHead.val) %
    COMMAND_BUFFER_SIZE

/-- The pending commands in dequeue order, read from the head cursor. -/
def queueList (rover : TwoWheelRover) : List TankCommand :=
  (List.range (queueSize rover)).map
    fun i => rover.commandQueue (bufIndex (rover.commandHead.val + i))

/-! ### Operation sequences over the queue -/

/-- A producer/consumer operation on the command queue: `enqueueRoverCommand`
with a given command, or `dequeueRoverCommand` into a default-initialized
output variable (as `loop()` in src/src/main.cpp does). -/
inductive QueueOp where
  | enq (command : TankCommand) : QueueOp
  | deq : QueueOp

/-- A run of queue operations: the rover state together with the commands of
the successful enqueues and of the successful dequeues, both oldest first. -/
structure RunResult where
  rover : TwoWheelRover
  enqueued : List TankCommand
  dequeued : List TankCommand

/-- Apply one queue operation, recording the command iff the call succeeds. -/
def runStep (acc : RunResult) : QueueOp → RunResult
  | .enq c =>
      let res := enqueueRoverCommand acc.rover c
      if res.1 = SUCCESS then ⟨res.2, acc.enqueued ++ [c], acc.dequeued⟩
      else ⟨res.2, acc.enqueued, acc.dequeued⟩
  | .deq =>
      let res := dequeueRoverCommand acc.rover default
      if res.1 = SUCCESS then ⟨res.2.1, acc.enqueued, acc.dequeued ++ [res.2.2]⟩
      else ⟨res.2.1, acc.enqueued, acc.dequeued⟩

/-- Run a whole operation sequence from the freshly initialized rover. -/
def runOps (ops : List QueueOp) : RunResult :=
  ops.foldl runStep ⟨initialRover, [], []⟩

/-- The FIFO invariant: the dequeued output so far, followed by the pending
commands, is exactly the successfully enqueued input so far. -/
def RunInv (acc : RunResult) : Prop :=
  acc.dequeued ++ queueList acc.rover = acc.enqueued

/-! ### Halt -/

/-- Modelled from the spec: the body of `TwoWheelRover::roverHalt` (declared
at rover.h lines 255-261: "Immediately stop the rover, disengage speed
controller, clear command queue"; the implementation file is not in `src/`).
Spec section 4.4: zero both wheels, drain the queue to empty, and reset the
controller state. -/
def roverHalt (rover : TwoWheelRover) : TwoWheelRover :=
  { rover with
      speedLeft := 0
      speedRight := 0
      commandHead := rover.commandTail
      leftController := ⟨0, 0, 0⟩
      rightController := ⟨0, 0, 0⟩ }

/-! ### Speed controller (PID) -/

/-- Modelled from the spec: the per-tick closed-loop update of a wheel's speed
controller (the `DriveWheel`/speed-controller sources are not in `src/`).
Spec section 4.3, steps 1-5: error, accumulated integral, derivative, then
`output = Kp*error + Ki*integral + Kd*derivative` clamped into the valid
drive-output range `[0, MAX_SPEED_COMMAND]` before it is sent to the wheel
adapter, and finally `previousError = error`.  Tuning parameters are the
`{maxSpeed, Kp, Ki, Kd}` record (`PidCommand`).  Returns the new controller
state and the clamped output handed to the adapter. -/
def updateSpeedController (p : PidCommand) (cs : ControllerState)
    (targetSpeed measuredSpeed : ℚ) : ControllerState × ℚ :=
  let error := targetSpeed - measuredSpeed
  let integral := cs.integralAccumulator + error
  let derivative := error - cs.previousError
  let unclamped := p.Kp * error + p.Ki * integral + p.Kd * derivative
  let output := max 0 (min MAX_SPEED_COMMAND unclamped)
  (⟨integral, error, output⟩, output)

/-! ### The wrapped (Form B) command parser -/

/-- Consume an expected literal sequence of characters, or fail. -/
def expectLit : List Char → List Char → Option (List Char)
  | [], cs => some cs
  | _ :: _, [] => none
  | l :: ls, c :: cs => if c = l then expectLit ls cs else none

/-- Decimal value of a digit string. -/
def digitsToNat (ds : List Char) : Nat :=
  ds.foldl (fun n d => 10 * n + (d.toNat - '0'.toNat)) 0

/-- Consume one or more decimal digits; fail on a non-numeric token. -/
def parseDigits (cs : List Char) : Option (Nat × List Char) :=
  let ds := cs.takeWhile Char.isDigit
  if ds.isEmpty then none
  else some (digitsToNat ds, cs.dropWhile Char.isDigit)

/-- Consume a Form B direction token: `forward` or `reverse` (spec section 6). -/
def parseDirection (cs : List Char) : Option (Bool × List Char) :=
  match expectLit "forward".toList cs with
  | some rest => some (true, rest)
  | none =>
    match expectLit "reverse".toList cs with
    | some rest => some (false, rest)
    | none => none

/-- Consume one wheel term `<name>(<direction>,<speed>)`. -/
def parseWheel (name : String) (cs : List Char) :
    Option (SpeedCommand × List Char) := do
  let cs ← expectLit (name ++ "(").toList cs
  let (forward, cs) ← parseDirection cs
  let cs ← expectLit [','] cs
  let (speed, cs) ← parseDigits cs
  let cs ← expectLit [')'] cs
  pure (⟨forward, (speed : ℚ)⟩, cs)

/-- Modelled from the spec: the Form B grammar
`tank(left(<direction>,<speed>), right(<direction>,<speed>))` of spec
sections 4.1 and 6 (the parser implementation is not in `src/`).  The two
`(direction, speed)` pairs are extracted positionally; any deviation from the
expected token layout is a parse failure; an optional blank may follow the
separating comma as in the spec's example; trailing text after the closing
parenthesis belongs to the transport envelope and is ignored. -/
def parseTankCommand (cs : List Char) : Option TankCommand := do
  let cs ← expectLit "tank(".toList cs
  let (left, cs) ← parseWheel "left" cs
  let cs ← expectLit [','] cs
  let cs := cs.dropWhile (· = ' ')
  let (right, cs) ← parseWheel "right" cs
  let _ ← expectLit [')'] cs
  pure ⟨true, left, right⟩

/-- Modelled from the spec: the body of `TwoWheelRover::submitTankCommand`
(declared at rover.h lines 213-224; the implementation file is not in `src/`).
Per the declaration's contract: status `SUCCESS`, or `-1` on a bad command
(null or empty), `-2` on a parse error, `-3` on an enqueue error (queue full);
the command text is parsed starting at the caller-supplied offset, and on
success the parsed command is pushed onto the command queue.  A null `char`
pointer is modelled as `none`. -/
def submitTankCommand (rover : TwoWheelRover) (commandParam : Option String)
    (offset : Nat) : SubmitCommandResult × TwoWheelRover :=
  match commandParam with
  | none => (⟨COMMAND_BAD_FAILURE, 0, .noop⟩, rover)
  | some s =>
    if s.isEmpty then (⟨COMMAND_BAD_FAILURE, 0, .noop⟩, rover)
    else
      match parseTankCommand (s.toList.drop offset) with
      | none => (⟨COMMAND_PARSE_FAILURE, 0, .noop⟩, rover)
      | some tank =>
        let res := enqueueRoverCommand rover tank
        if res.1 = SUCCESS then (⟨SUCCESS, 0, .tank tank⟩, res.2)
        else (⟨COMMAND_ENQUEUE_FAILURE, 0, .tank tank⟩, res.2)

/-! ### The key-value (Form A) turtle command path -/

/-- The five admissible direction tokens (rover.h lines 205-206, spec 4.1). -/
def directionTokens : List String :=
  ["forward", "reverse", "left", "right", "stop"]

/-- A speed parameter must be a wholly numeric non-negative decimal string. -/
def parseSpeedValue (cs : List Char) : Option ℚ :=
  match parseDigits cs with
  | some (n, []) => some (n : ℚ)
  | _ => none

/-- The wheel pair for a valid non-stop direction token (spec section 4.1
Form A): `forward`/`reverse` drive both wheels that way; `left` turns with
the left wheel in reverse and the right wheel forward; `right` mirrors it. -/
def buildTurtle (useSpeedControl : Bool) (direction : String) (speed : ℚ) :
    TankCommand :=
  if direction = "forward" then ⟨useSpeedControl, ⟨true, speed⟩, ⟨true, speed⟩⟩
  else if direction = "reverse" then ⟨useSpeedControl, ⟨false, speed⟩, ⟨false, speed⟩⟩
  else if direction = "left" then ⟨useSpeedControl, ⟨false, speed⟩, ⟨true, speed⟩⟩
  else ⟨useSpeedControl, ⟨true, speed⟩, ⟨false, speed⟩⟩

/-- Modelled from the spec: the body of `TwoWheelRover::submitTurtleCommand`
(declared at rover.h lines 199-210; the implementation file is not in `src/`).
Spec section 4.1 Form A: null or empty parameters are bad input; the
direction must be one of the five tokens (else a bad-request error, with no
command enqueued); the speed must parse as a non-negative number within the
range of the mode (at most `MAX_SPEED_COMMAND` when `useSpeedControl` is
false), else a parse error; `stop` produces a halt regardless of speed (spec
section 5: halt is synchronous); otherwise the built payload is pushed to the
queue, failing with an enqueue error when the queue is full. -/
def submitTurtleCommand (rover : TwoWheelRover) (useSpeedControl : Bool)
    (directionParam speedParam : Option String) : Int × TwoWheelRover :=
  match directionParam, speedParam with
  | none, _ => (COMMAND_BAD_FAILURE, rover)
  | _, none => (COMMAND_BAD_FAILURE, rover)
  | some direction, some speed =>
    if direction.isEmpty ∨ speed.isEmpty then (COMMAND_BAD_FAILURE, rover)
    else if direction ∉ directionTokens then (COMMAND_BAD_FAILURE, rover)
    else if direction = "stop" then (SUCCESS, roverHalt rover)
    else
      match parseSpeedValue speed.toList with
      | none => (COMMAND_PARSE_FAILURE, rover)
      | some sp =>
        if ¬useSpeedControl ∧ MAX_SPEED_COMMAND < sp then
          (COMMAND_PARSE_FAILURE, rover)
        else
          let res := enqueueRoverCommand rover (buildTurtle useSpeedControl direction sp)
          if res.1 = SUCCESS then (SUCCESS, res.2)
          else (COMMAND_ENQUEUE_FAILURE, res.2)

/-! ### HTTP and websocket command handlers (src/src/main.cpp) -/

/-- One HTTP response sent to a request: status code and text body. -/
structure HttpResponse where
  code : Nat
  body : String
deriving DecidableEq

/-- Shallow embedding of `roverHandler` (src/src/main.cpp lines 319-346), the
`/rover` endpoint.  Each query parameter defaults to the empty string when
absent; the Arduino `NULL == String` comparison holds exactly for the empty
string; the C++ `||` short-circuits, so `submitTurtleCommand` runs only when
both parameters are nonempty (the call site passes only the direction and
speed strings; the pwm mode of the endpoint comment "speed: 0..255" fixes
`useSpeedControl` to false).  Note that the 400 branch neither returns nor
has an else, so the trailing 200 response is sent on every path.  Returns the
new rover state and the responses sent, in order. -/
def roverHandler (rover : TwoWheelRover) (direction speed : Option String) :
    TwoWheelRover × List HttpResponse :=
  let directionParam := direction.getD ""
  let speedParam := speed.getD ""
  let ack : HttpResponse := ⟨200, directionParam ++ "," ++ speedParam⟩
  if directionParam.isEmpty then
    (rover, [⟨400, "bad_request"⟩, ack])
  else if speedParam.isEmpty then
    (rover, [⟨400, "bad_request"⟩, ack])
  else
    let res := submitTurtleCommand rover false (some directionParam) (some speedParam)
    if res.1 ≠ SUCCESS then
      (res.2, [⟨400, "bad_request"⟩, ack])
    else
      (res.2, [ack])

/-- The websocket event types handled by `wsCommandEvent` (`WStype_t`). -/
inductive WStype where
  | connected : WStype
  | disconnected : WStype
  | pong : WStype
  | bin : WStype
  | text : WStype
  | other : WStype
deriving DecidableEq

/-- The two websocket servers of src/src/main.cpp: `wsStream` (port 81) and
`wsCommand` (port 82). -/
inductive WsServerId where
  | stream : WsServerId
  | command : WsServerId
deriving DecidableEq

/-- An observable websocket send performed by an event handler. -/
inductive WsAction where
  | sendPing (server : WsServerId) (clientNum : Nat) (payload : String) : WsAction
  | sendTXT (server : WsServerId) (clientNum : Nat) (message : String) : WsAction
deriving DecidableEq

/-- The global client/session state of src/src/main.cpp lines 259-260
together with the rover. -/
structure WsState where
  commandClientId : Int
  isCommandSocketOn : Bool
  rover : TwoWheelRover

/-- `strCopySize` into the 128-byte stack buffer of the text branch keeps at
most 127 characters of the payload. -/
def copyToBuffer (payload : String) : String :=
  String.mk (payload.toList.take 127)

/-- Shallow embedding of `wsCommandEvent` (src/src/main.cpp lines 481-539),
the command websocket event handler.  On `WStype_CONNECTED` it sends the ping
through `wsStream` (line 485).  On `WStype_DISCONNECTED` it clears the
registered command client if it was this client.  On `WStype_PONG` it
registers this client.  On `WStype_TEXT` it copies the payload into a stack
buffer, submits it via `submitTankCommand` at offset 0, and acks by echoing
the original payload on success or sends `nack(<status>)` on failure, in both
cases through `wsCommand` to the sending client.  Returns the new state and
the sends performed. -/
def wsCommandEvent (st : WsState) (clientNum : Nat) (type : WStype)
    (payload : String) : WsState × List WsAction :=
  match type with
  | .connected => (st, [.sendPing .stream clientNum "ping"])
  | .disconnected =>
      if st.commandClientId = (clientNum : Int) then
        ({ st with commandClientId := -1, isCommandSocketOn := false }, [])
      else (st, [])
  | .pong =>
      ({ st with commandClientId := (clientNum : Int), isCommandSocketOn := true }, [])
  | .bin => (st, [])
  | .text =>
      let res := submitTankCommand st.rover (some (copyToBuffer payload)) 0
      if res.1.status = SUCCESS then
        ({ st with rover := res.2 }, [.sendTXT .command clientNum payload])
      else
        ({ st with rover := res.2 },
         [.sendTXT .command clientNum ("nack(" ++ toString res.1.status ++ ")")])
  | .other => (st, [])

example : queueList initialRover = [] := rfl

example : (enqueueRoverCommand initialRover default).1 = SUCCESS := rfl

/-! ### Queue behaviour lemmas -/

/-- Numeral normalization for queue indices. -/
lemma fin4_val_zero : ((0 : Fin COMMAND_BUFFER_SIZE) : Nat) = 0 := rfl

/-- Numeral normalization for queue indices. -/
lemma fin4_val_one : ((1 : Fin COMMAND_BUFFER_SIZE) : Nat) = 1 := rfl

/-- Numeral normalization for queue indices. -/
lemma fin4_val_two : ((2 : Fin COMMAND_BUFFER_SIZE) : Nat) = 2 := rfl

/-- Numeral normalization for queue indices. -/
lemma fin4_val_three : ((3 : Fin COMMAND_BUFFER_SIZE) : Nat) = 3 := rfl

/-- A full queue rejects the command and leaves the whole state unchanged. -/
lemma enqueueRoverCommand_full (rover : TwoWheelRover) (command : TankCommand)
    (h : rover.commandTail + 1 = rover.commandHead) :
    enqueueRoverCommand rover command = (FAILURE, rover) := by
  simp [enqueueRoverCommand, h]

/-- A non-full queue accepts the command: the status is `SUCCESS`, the head is
unchanged, the tail advances by one (mod capacity), and the pending commands
gain the new command at the back. -/
lemma enqueueRoverCommand_not_full (rover : TwoWheelRover) (command : TankCommand)
    (h : rover.commandTail + 1 ≠ rover.commandHead) :
    (enqueueRoverCommand rover command).1 = SUCCESS ∧
    (enqueueRoverCommand rover command).2.commandHead = rover.commandHead ∧
    (enqueueRoverCommand rover command).2.commandTail = rover.commandTail + 1 ∧
    queueList (enqueueRoverCommand rover command).2 = queueList rover ++ [command] := by
  obtain ⟨sl, sr, fl, fr, q, hd, tl, lc, rc⟩ := rover
  fin_cases hd <;> fin_cases tl <;>
    first
      | exact absurd rfl h
      | (refine ⟨rfl, rfl, rfl, ?_⟩
         simp +decide [enqueueRoverCommand, queueList, queueSize, bufIndex,
           COMMAND_BUFFER_SIZE, List.range_succ, Function.update,
           fin4_val_zero, fin4_val_one, fin4_val_two, fin4_val_three])

/-- An empty queue fails the dequeue, leaving state and output unchanged. -/
lemma dequeueRoverCommand_empty (rover : TwoWheelRover) (command : TankCommand)
    (h : rover.commandHead = rover.commandTail) :
    dequeueRoverCommand rover command = (FAILURE, rover, command) := by
  simp [dequeueRoverCommand, h]

/-- A non-empty queue dequeues its oldest pending command and advances the
head: the old pending list is the returned command consed on the new one. -/
lemma dequeueRoverCommand_not_empty (rover : TwoWheelRover) (command : TankCommand)
    (h : rover.commandHead ≠ rover.commandTail) :
    (dequeueRoverCommand rover command).1 = SUCCESS ∧
    queueList rover =
      (dequeueRoverCommand rover command).2.2 ::
        queueList (dequeueRoverCommand rover command).2.1 := by
  obtain ⟨sl, sr, fl, fr, q, hd, tl, lc, rc⟩ := rover
  fin_cases hd <;> fin_cases tl <;>
    first
      | exact absurd rfl h
      | (refine ⟨rfl, ?_⟩
         simp +decide [dequeueRoverCommand, queueList, queueSize, bufIndex,
           COMMAND_BUFFER_SIZE, List.range_succ, Function.update,
           fin4_val_zero, fin4_val_one, fin4_val_two, fin4_val_three])

/-- The pending list never exceeds the buffer capacity, for any state. -/
lemma queueList_length_le (rover : TwoWheelRover) :
    (queueList rover).length ≤ COMMAND_BUFFER_SIZE := by
  simp only [queueList, List.length_map, List.length_range]
  exact le_of_lt (Nat.mod_lt _ (by decide))

/-! ### Run invariant -/

/-- Each queue operation preserves the FIFO invariant. -/
lemma runStep_inv (acc : RunResult) (op : QueueOp) (h : RunInv acc) :
    RunInv (runStep acc op) := by
  cases op with
  | enq c =>
      by_cases hfull : acc.rover.commandTail + 1 = acc.rover.commandHead
      · simp only [RunInv, runStep]
        rw [enqueueRoverCommand_full acc.rover c hfull]
        simpa [SUCCESS, FAILURE] using h
      · obtain ⟨h1, _, _, h4⟩ := enqueueRoverCommand_not_full acc.rover c hfull
        simp only [RunInv, runStep]
        simp only [h1, if_pos rfl, reduceIte]
        rw [h4, ← List.append_assoc, h]
  | deq =>
      by_cases hempty : acc.rover.commandHead = acc.rover.commandTail
      · simp only [RunInv, runStep]
        rw [dequeueRoverCommand_empty acc.rover default hempty]
        simpa [SUCCESS, FAILURE] using h
      · obtain ⟨h1, h2⟩ := dequeueRoverCommand_not_empty acc.rover default hempty
        simp only [RunInv, runStep]
        simp only [h1, reduceIte]
        rw [List.append_assoc, List.singleton_append, ← h2, h]

/-- The FIFO invariant holds after any fold of queue operations. -/
lemma runInv_foldl (ops : List QueueOp) :
    ∀ acc : RunResult, RunInv acc → RunInv (ops.foldl runStep acc) := by
  induction ops with
  | nil => exact fun _ h => h
  | cons op ops ih => exact fun acc h => ih _ (runStep_inv acc op h)

/-- The FIFO invariant holds for every run from the initial rover. -/
lemma runInv_runOps (ops : List QueueOp) : RunInv (runOps ops) :=
  runInv_foldl ops ⟨initialRover, [], []⟩ rfl

/-! ### Claim theorems -/

/-- Claim C1, counterexample: from the freshly initialized rover the first
three consecutive `enqueueRoverCommand` calls succeed but the 4th already
fails — so four successful enqueues with no intervening dequeue never happen,
and it is not a 5th call that first fails with the queue-full status. -/
theorem C1_counterexample_fourth_enqueue_fails :
    (enqueueRoverCommand initialRover default).1 = SUCCESS ∧
    (enqueueRoverCommand (enqueueRoverCommand initialRover default).2
        default).1 = SUCCESS ∧
    (enqueueRoverCommand (enqueueRoverCommand
        (enqueueRoverCommand initialRover default).2 default).2
        default).1 = SUCCESS ∧
    (enqueueRoverCommand (enqueueRoverCommand (enqueueRoverCommand
        (enqueueRoverCommand initialRover default).2 default).2 default).2
        default).1 = FAILURE := by
  decide

/-- Claim C1 (amended): `enqueueRoverCommand` fails — returning the failure
status and leaving the buffered entries and the head/tail cursors entirely
unchanged — exactly when advancing the tail cursor would make it equal to the
head cursor, and succeeds otherwise, advancing the tail by one modulo the
capacity with the head unchanged (so at most 3 of the 4 slots are ever
occupied). -/
theorem C1_enqueue_full_law (rover : TwoWheelRover) (command : TankCommand) :
    ((enqueueRoverCommand rover command).1 = SUCCESS ↔
      rover.commandTail + 1 ≠ rover.commandHead) ∧
    (rover.commandTail + 1 = rover.commandHead →
      enqueueRoverCommand rover command = (FAILURE, rover)) ∧
    ((enqueueRoverCommand rover command).1 = SUCCESS →
      (enqueueRoverCommand rover command).2.commandTail = rover.commandTail + 1 ∧
      (enqueueRoverCommand rover command).2.commandHead = rover.commandHead) := by
  refine ⟨⟨?_, ?_⟩, enqueueRoverCommand_full rover command, ?_⟩
  · intro hs hfull
    rw [enqueueRoverCommand_full rover command hfull] at hs
    simp [FAILURE, SUCCESS] at hs
  · exact fun hfull => (enqueueRoverCommand_not_full rover command hfull).1
  · intro hs
    by_cases hfull : rover.commandTail + 1 = rover.commandHead
    · rw [enqueueRoverCommand_full rover command hfull] at hs
      simp [FAILURE, SUCCESS] at hs
    · obtain ⟨_, h2, h3, _⟩ := enqueueRoverCommand_not_full rover command hfull
      exact ⟨h3, h2⟩

/-- Witness for C1_enqueue_full_law: at the initial rover with the default
command, the non-full hypothesis holds and the enqueue succeeds. -/
theorem C1_enqueue_full_law_witness :
    (enqueueRoverCommand initialRover default).1 = SUCCESS :=
  (C1_enqueue_full_law initialRover default).1.mpr (by decide)

/-- Claim C2: over every sequence of enqueue/dequeue operations from the
empty queue, the number of buffered commands never exceeds the capacity 4,
the successful dequeues are an initial segment of the successful enqueues in
order (the Nth successful dequeue returns the Nth successfully enqueued
command), and a dequeue from an empty queue (head = tail) fails leaving the
output parameter unchanged. -/
theorem C2_queue_fifo (ops : List QueueOp) :
    (queueList (runOps ops).rover).length ≤ COMMAND_BUFFER_SIZE ∧
    (runOps ops).dequeued =
      (runOps ops).enqueued.take (runOps ops).dequeued.length ∧
    ∀ (rover : TwoWheelRover) (command : TankCommand),
      rover.commandHead = rover.commandTail →
        dequeueRoverCommand rover command = (FAILURE, rover, command) := by
  refine ⟨queueList_length_le _, ?_, dequeueRoverCommand_empty⟩
  have h := runInv_runOps ops
  unfold RunInv at h
  rw [← h, List.take_left]

/-- Witness for C2_queue_fifo: the empty-queue dequeue clause at the initial
rover. -/
theorem C2_queue_fifo_witness :
    dequeueRoverCommand initialRover default = (FAILURE, initialRover, default) :=
  (C2_queue_fifo []).2.2 initialRover default rfl

/-- Claim C3: `roverHalt`, from any state, zeroes both wheel outputs, removes
every pending entry from the command queue, resets both per-wheel
speed-controller states, and executing it again changes nothing. -/
theorem C3_roverHalt_clears_and_idempotent (rover : TwoWheelRover) :
    (roverHalt rover).speedLeft = 0 ∧
    (roverHalt rover).speedRight = 0 ∧
    queueList (roverHalt rover) = [] ∧
    (roverHalt rover).leftController = ⟨0, 0, 0⟩ ∧
    (roverHalt rover).rightController = ⟨0, 0, 0⟩ ∧
    roverHalt (roverHalt rover) = roverHalt rover := by
  refine ⟨rfl, rfl, ?_, rfl, rfl, rfl⟩
  simp [queueList, queueSize, roverHalt]

/-- Claim C4: on every closed-loop tick the value handed to the wheel adapter
equals the PID sum Kp*error + Ki*integral + Kd*derivative clamped into the
drive-output range, and lies within [0, MAX_SPEED_COMMAND] for every
magnitude of the unclamped sum and of the accumulated integral. -/
theorem C4_pid_output_clamped (p : PidCommand) (cs : ControllerState)
    (targetSpeed measuredSpeed : ℚ) :
    (updateSpeedController p cs targetSpeed measuredSpeed).2 =
      max 0 (min MAX_SPEED_COMMAND
        (p.Kp * (targetSpeed - measuredSpeed) +
         p.Ki * (cs.integralAccumulator + (targetSpeed - measuredSpeed)) +
         p.Kd * ((targetSpeed - measuredSpeed) - cs.previousError))) ∧
    0 ≤ (updateSpeedController p cs targetSpeed measuredSpeed).2 ∧
    (updateSpeedController p cs targetSpeed measuredSpeed).2 ≤ MAX_SPEED_COMMAND := by
  refine ⟨rfl, le_max_left _ _, ?_⟩
  exact max_le (by norm_num [MAX_SPEED_COMMAND]) (min_le_left _ _)

/-- Claim C5: `submitTankCommand` returns status SUCCESS = 0 on success, and
on failure exactly the matching one of three pairwise-distinct negative
codes: COMMAND_BAD_FAILURE = -1 for null/empty input, COMMAND_PARSE_FAILURE =
-2 for malformed grammar, COMMAND_ENQUEUE_FAILURE = -3 for a full queue. -/
theorem C5_submitTankCommand_status (rover : TwoWheelRover)
    (commandParam : Option String) (offset : Nat) :
    (SUCCESS = 0 ∧ COMMAND_BAD_FAILURE = -1 ∧ COMMAND_PARSE_FAILURE = -2 ∧
      COMMAND_ENQUEUE_FAILURE = -3) ∧
    ((submitTankCommand rover commandParam offset).1.status = SUCCESS ∨
     (submitTankCommand rover commandParam offset).1.status = COMMAND_BAD_FAILURE ∨
     (submitTankCommand rover commandParam offset).1.status = COMMAND_PARSE_FAILURE ∨
     (submitTankCommand rover commandParam offset).1.status = COMMAND_ENQUEUE_FAILURE) ∧
    (commandParam = none ∨ commandParam = some "" →
      (submitTankCommand rover commandParam offset).1.status = COMMAND_BAD_FAILURE) ∧
    (∀ s, commandParam = some s → ¬s.isEmpty →
      parseTankCommand (s.toList.drop offset) = none →
      (submitTankCommand rover commandParam offset).1.status = COMMAND_PARSE_FAILURE) ∧
    (∀ s tank, commandParam = some s → ¬s.isEmpty →
      parseTankCommand (s.toList.drop offset) = some tank →
      ((enqueueRoverCommand rover tank).1 = SUCCESS →
        (submitTankCommand rover commandParam offset).1.status = SUCCESS) ∧
      ((enqueueRoverCommand rover tank).1 ≠ SUCCESS →
        (submitTankCommand rover commandParam offset).1.status =
          COMMAND_ENQUEUE_FAILURE)) := by
  rcases commandParam with _ | s
  · refine ⟨⟨rfl, rfl, rfl, rfl⟩, Or.inr (Or.inl rfl), fun _ => rfl, ?_, ?_⟩
    · intro s hs
      exact nomatch hs
    · intro s t hs
      exact nomatch hs
  · by_cases hemp : s.isEmpty
    · refine ⟨⟨rfl, rfl, rfl, rfl⟩, ?_, ?_, ?_, ?_⟩
      · right; left; simp [submitTankCommand, hemp]
      · intro _; simp [submitTankCommand, hemp]
      · intro s' hs' hne _
        cases hs'
        exact absurd hemp hne
      · intro s' t hs' hne _
        cases hs'
        exact absurd hemp hne
    · cases hp : parseTankCommand (s.toList.drop offset) with
      | none =>
        have hp2 : parseTankCommand (List.drop offset s.data) = none := hp
        refine ⟨⟨rfl, rfl, rfl, rfl⟩, ?_, ?_, ?_, ?_⟩
        · right; right; left; simp [submitTankCommand, hemp, hp2]
        · rintro (h | h)
          · exact nomatch h
          · injection h with h'
            subst h'
            exact absurd rfl hemp
        · intro s' hs' _ _
          cases hs'
          simp [submitTankCommand, hemp, hp2]
        · intro s' t hs' _ hp'
          cases hs'
          rw [hp] at hp'
          exact nomatch hp'
      | some tank =>
        have hp2 : parseTankCommand (List.drop offset s.data) = some tank := hp
        refine ⟨⟨rfl, rfl, rfl, rfl⟩, ?_, ?_, ?_, ?_⟩
        · by_cases he : (enqueueRoverCommand rover tank).1 = SUCCESS
          · left; simp [submitTankCommand, hemp, hp2, he]
          · right; right; right; simp [submitTankCommand, hemp, hp2, he]
        · rintro (h | h)
          · exact nomatch h
          · injection h with h'
            subst h'
            exact absurd rfl hemp
        · intro s' hs' _ hp'
          cases hs'
          rw [hp] at hp'
          exact nomatch hp'
        · intro s' t hs' _ hp'
          cases hs'
          rw [hp] at hp'
          injection hp' with ht
          subst ht
          constructor
          · intro he; simp [submitTankCommand, hemp, hp2, he]
          · intro he; simp [submitTankCommand, hemp, hp2, he]

/-- Witness for C5_submitTankCommand_status: a null command parameter gets
the bad-input code. -/
theorem C5_submitTankCommand_status_witness :
    (submitTankCommand initialRover none 0).1.status = COMMAND_BAD_FAILURE :=
  (C5_submitTankCommand_status initialRover none 0).2.2.1 (Or.inl rfl)

/-- Claim C6, evaluation at the failing input: on a `/rover` request with the
direction parameter missing (and speed "100"), `roverHandler` sends the 400
bad-request response and then additionally sends the 200 acknowledgement for
the same request, because the 400 branch falls through to the trailing
`request->send(200, ...)`. -/
theorem C6_roverHandler_double_response :
    (roverHandler initialRover none (some "100")).2 =
      [⟨400, "bad_request"⟩, ⟨200, ",100"⟩] := by
  decide

/-- Claim C7: for every text frame on the command websocket, the handler sends
exactly one reply, through the command server to the sending client: the
echoed original command text when `submitTankCommand` returns SUCCESS, and
`nack(<status>)` carrying the returned status otherwise. -/
theorem C7_wsCommand_text_ack (st : WsState) (clientNum : Nat)
    (payload : String) :
    (wsCommandEvent st clientNum .text payload).2 =
      [if (submitTankCommand st.rover (some (copyToBuffer payload)) 0).1.status
          = SUCCESS
       then WsAction.sendTXT WsServerId.command clientNum payload
       else WsAction.sendTXT WsServerId.command clientNum
         ("nack(" ++
           toString (submitTankCommand st.rover (some (copyToBuffer payload))
             0).1.status ++ ")")] ∧
    ((wsCommandEvent st clientNum .text payload).2).length = 1 := by
  constructor <;>
    (by_cases h : (submitTankCommand st.rover (some (copyToBuffer payload))
        0).1.status = SUCCESS <;>
      simp [wsCommandEvent, h])

/-- Claim C8: for every direction string outside {forward, reverse, left,
right, stop}, `submitTurtleCommand` returns a non-SUCCESS status and leaves
the rover state unchanged — no command is enqueued and no motion defaulted. -/
theorem C8_submitTurtle_invalid_direction (rover : TwoWheelRover)
    (useSpeedControl : Bool) (speedParam : Option String) (direction : String)
    (hd : direction ∉ directionTokens) :
    (submitTurtleCommand rover useSpeedControl (some direction) speedParam).1 ≠
      SUCCESS ∧
    (submitTurtleCommand rover useSpeedControl (some direction) speedParam).2 =
      rover := by
  have hbad : COMMAND_BAD_FAILURE ≠ SUCCESS := by decide
  rcases speedParam with _ | speed
  · exact ⟨hbad, rfl⟩
  · by_cases hde : direction.isEmpty ∨ speed.isEmpty
    · have hr : submitTurtleCommand rover useSpeedControl (some direction)
          (some speed) = (COMMAND_BAD_FAILURE, rover) := by
        simp only [submitTurtleCommand]
        rw [if_pos hde]
      rw [hr]
      exact ⟨hbad, rfl⟩
    · have hr : submitTurtleCommand rover useSpeedControl (some direction)
          (some speed) = (COMMAND_BAD_FAILURE, rover) := by
        simp only [submitTurtleCommand]
        rw [if_neg hde, if_pos hd]
      rw [hr]
      exact ⟨hbad, rfl⟩

/-- Witness for C8_submitTurtle_invalid_direction: the direction "up" is
rejected without touching the state. -/
theorem C8_submitTurtle_invalid_direction_witness :
    (submitTurtleCommand initialRover true (some "up") (some "100")).1 ≠
      SUCCESS ∧
    (submitTurtleCommand initialRover true (some "up") (some "100")).2 =
      initialRover :=
  C8_submitTurtle_invalid_direction initialRover true (some "100") "up"
    (by decide)

/-- Claim C9: the text-frame behaviour of the command websocket handler does
not depend on the registered command client: two states differing only in
`commandClientId` and `isCommandSocketOn` yield the same reply actions to the
sending client and the same resulting rover state for a text frame from any
client — being the registered command client is not required. -/
theorem C9_wsCommand_text_client_independent (st : WsState) (cid : Int)
    (sock : Bool) (clientNum : Nat) (payload : String) :
    (wsCommandEvent { st with commandClientId := cid, isCommandSocketOn := sock }
        clientNum .text payload).2 =
      (wsCommandEvent st clientNum .text payload).2 ∧
    (wsCommandEvent { st with commandClientId := cid, isCommandSocketOn := sock }
        clientNum .text payload).1.rover =
      (wsCommandEvent st clientNum .text payload).1.rover := by
  constructor <;>
    (by_cases h : (submitTankCommand st.rover (some (copyToBuffer payload))
        0).1.status = SUCCESS <;>
      simp [wsCommandEvent, h])

/-- Claim C10: on every CONNECTED event of the command websocket the handler
sends the ping through the stream websocket server (`wsStream`) to that
client number — and nothing through the command server itself, whose PONG
branch is therefore never triggered by its own handshake. -/
theorem C10_wsCommand_connected_ping_stream (st : WsState) (clientNum : Nat)
    (payload : String) :
    wsCommandEvent st clientNum .connected payload =
      (st, [WsAction.sendPing WsServerId.stream clientNum "ping"]) := rfl

/-! ### Sanity checks: the success paths are reachable -/

example :
    parseTankCommand "tank(left(forward,120), right(reverse,10))".toList =
      some ⟨true, ⟨true, 120⟩, ⟨false, 10⟩⟩ := by decide

example :
    (submitTankCommand initialRover
      (some "cmd(tank(left(forward,120), right(reverse,10)))") 4).1.status =
      SUCCESS := by decide

example :
    (submitTankCommand initialRover (some "tank(left(oops,1), right(forward,2))")
      0).1.status = COMMAND_PARSE_FAILURE := by decide

example :
    (submitTurtleCommand initialRover false (some "left") (some "120")).1 =
      SUCCESS ∧
    queueList (submitTurtleCommand initialRover false (some "left")
        (some "120")).2 =
      [⟨false, ⟨false, 120⟩, ⟨true, 120⟩⟩] := by
  constructor <;> decide

example :
    (roverHandler initialRover (some "forward") (some "100")).2 =
      [⟨200, "forward,100"⟩] := by decide

example :
    (wsCommandEvent ⟨-1, false, initialRover⟩ 3 .text
        "tank(left(forward,120), right(reverse,10))").2 =
      [WsAction.sendTXT WsServerId.command 3
        "tank(left(forward,120), right(reverse,10))"] := by decide

example :
    (wsCommandEvent ⟨-1, false, initialRover⟩ 3 .text "garbage").2 =
      [WsAction.sendTXT WsServerId.command 3 "nack(-2)"] := by decide
